import Mathlib

/-!
Shallow embedding of the indicator-computation and chart-layer-assembly core
of `src/app.py` (class `StockApp`).

Conventions of the embedding:
* Prices are exact rationals (`ℚ`); the source computes in IEEE floats, whose
  NaN/inf behaviour is made explicit here through `Option` values:
  a pandas `NaN` slot is `none`.
* `series.diff(1)` yields NaN at index 0; `delta.where(delta > 0, 0)` replaces
  every slot failing the comparison (NaN compares false) by `0`, so the gain
  and loss series are `0` at index 0.
* `rolling(window=period, min_periods=1).mean()` at index `i` averages the
  trailing `min (i+1) period` entries, defined from index 0 on.
* `rs = avg_gain / avg_loss` in floats: `0/0 = NaN` and `g/0 = +inf` for
  `g > 0` (gains are nonnegative); `100 - 100/(1 + NaN) = NaN` and
  `100 - 100/(1 + inf) = 100`.  `rsiAt` makes those two escapes explicit.
* `rolling(window).mean()` (no `min_periods`) is NaN until `window`
  observations exist; `rolling(window).std()` is the sample standard
  deviation (ddof = 1), additionally NaN when the window holds a single
  observation.
-/

/-- One OHLCV record of the input `pandas.DataFrame`. -/
structure PriceRecord where
  Open : ℚ
  High : ℚ
  Low : ℚ
  Close : ℚ
  Volume : ℚ
deriving DecidableEq

/-- The `data['Close']` column. -/
def closes (data : List PriceRecord) : List ℚ :=
  data.map PriceRecord.Close

/-- The per-checkbox boolean flags of `StockApp`
(`show_volume`, `show_rsi`, `show_bbands`, `show_ma5/20/60/200`). -/
structure FeatureToggles where
  volume : Bool
  rsi : Bool
  bbands : Bool
  ma5 : Bool
  ma20 : Bool
  ma60 : Bool
  ma200 : Bool
deriving DecidableEq

/-- `delta = series.diff(1)` at an index `i ≥ 1` (at `i = 0` the diff is NaN,
handled separately by `gain`/`loss`). -/
def dlt (s : List ℚ) (i : ℕ) : ℚ :=
  s.getD i 0 - s.getD (i - 1) 0

/-- `gain = delta.where(delta > 0, 0)`: NaN at index 0 compares false and is
replaced by 0. -/
def gain (s : List ℚ) (i : ℕ) : ℚ :=
  if i = 0 then 0 else if 0 < dlt s i then dlt s i else 0

/-- `loss = -delta.where(delta < 0, 0)`. -/
def loss (s : List ℚ) (i : ℕ) : ℚ :=
  if i = 0 then 0 else if dlt s i < 0 then -dlt s i else 0

/-- Lower end of the trailing window of width `min (i+1) p` ending at `i`. -/
def winLo (p i : ℕ) : ℕ :=
  i + 1 - min (i + 1) p

/-- `gain.rolling(window=period, min_periods=1).mean()` at index `i`. -/
def avg_gain (s : List ℚ) (p i : ℕ) : ℚ :=
  (∑ j ∈ Finset.Icc (winLo p i) i, gain s j) / ((min (i + 1) p : ℕ) : ℚ)

/-- `loss.rolling(window=period, min_periods=1).mean()` at index `i`. -/
def avg_loss (s : List ℚ) (p i : ℕ) : ℚ :=
  (∑ j ∈ Finset.Icc (winLo p i) i, loss s j) / ((min (i + 1) p : ℕ) : ℚ)

/-- `100 - (100 / (1 + avg_gain / avg_loss))` at one index, with the float
division escapes explicit: `avg_loss = 0` with `avg_gain = 0` is `0/0 = NaN`
(the NaN propagates, so the result slot is `none`); `avg_loss = 0` with
`avg_gain ≠ 0` is `+inf` (gains are nonnegative), and
`100 - 100/(1 + inf) = 100`. -/
def rsiAt (s : List ℚ) (p i : ℕ) : Option ℚ :=
  if avg_loss s p i = 0 then
    if avg_gain s p i = 0 then none else some 100
  else
    some (100 - 100 / (1 + avg_gain s p i / avg_loss s p i))

/-- `calculate_rsi(series, period)`: the RSI series, index-aligned with the
input. -/
def calculate_rsi (series : List ℚ) (period : ℕ) : List (Option ℚ) :=
  (List.range series.length).map (rsiAt series period)

/-- `data['Close'].rolling(window).mean()` at an index where it is defined. -/
def rolling_mean (s : List ℚ) (w i : ℕ) : ℚ :=
  (∑ j ∈ Finset.Icc (i + 1 - w) i, s.getD j 0) / (w : ℚ)

/-- `data['Close'].rolling(window).std()` squared: the sample variance
(ddof = 1) of the trailing `w` observations. -/
def rolling_var (s : List ℚ) (w i : ℕ) : ℚ :=
  (∑ j ∈ Finset.Icc (i + 1 - w) i, (s.getD j 0 - rolling_mean s w i) ^ 2) /
    ((w - 1 : ℕ) : ℚ)

/-- `rolling_mean + (rolling_std * no_of_std)` at index `i`: NaN (`none`)
while fewer than `w` observations exist (`rolling` default
`min_periods = window`), and also for `w ≤ 1` where the ddof-1 sample std of a
single observation is NaN. -/
noncomputable def upperAt (s : List ℚ) (w nstd i : ℕ) : Option ℝ :=
  if i + 1 < w ∨ w ≤ 1 then none
  else some ((rolling_mean s w i : ℝ) + Real.sqrt (rolling_var s w i) * nstd)

/-- `rolling_mean - (rolling_std * no_of_std)` at index `i`. -/
noncomputable def lowerAt (s : List ℚ) (w nstd i : ℕ) : Option ℝ :=
  if i + 1 < w ∨ w ≤ 1 then none
  else some ((rolling_mean s w i : ℝ) - Real.sqrt (rolling_var s w i) * nstd)

/-- `calculate_bbands(data, window, no_of_std)`: the `'Upper'` and `'Lower'`
columns, each index-aligned with the input. -/
noncomputable def calculate_bbands (data : List PriceRecord) (w nstd : ℕ) :
    List (Option ℝ) × List (Option ℝ) :=
  ((List.range data.length).map (upperAt (closes data) w nstd),
   (List.range data.length).map (lowerAt (closes data) w nstd))

/-- Target panel of an `mpf.make_addplot` descriptor: `primary` is the price
panel (mplfinance default), `secondary` is `panel='lower'`. -/
inductive Panel where
  | primary
  | secondary
deriving DecidableEq

/-- The values carried by one addplot descriptor. -/
inductive OverlayValues where
  | rsiV : List (Option ℚ) → OverlayValues
  | bandV : List (Option ℝ) → OverlayValues

/-- One `mpf.make_addplot(...)` descriptor. -/
structure Overlay where
  panel : Panel
  values : OverlayValues
  color : String
  label : Option String

/-- `get_mav`: appends 5, 20, 60, 200 for each enabled checkbox in that
order, and returns `None` (not `[]`) when no box is checked. -/
def get_mav (t : FeatureToggles) : Option (List ℕ) :=
  let mav_values :=
    (if t.ma5 then [5] else []) ++ (if t.ma20 then [20] else []) ++
      (if t.ma60 then [60] else []) ++ (if t.ma200 then [200] else [])
  if mav_values = [] then none else some mav_values

/-- `get_indicators(data)`: the `addplots` list — an RSI descriptor on the
lower panel when `show_rsi`, then the two Bollinger descriptors on the main
panel when `show_bbands`. -/
noncomputable def get_indicators (data : List PriceRecord) (t : FeatureToggles) :
    List Overlay :=
  (if t.rsi then
    [⟨Panel.secondary, OverlayValues.rsiV (calculate_rsi (closes data) 14),
      "blue", some "RSI"⟩]
   else []) ++
  (if t.bbands then
    [⟨Panel.primary, OverlayValues.bandV (calculate_bbands data 20 2).1,
      "red", none⟩,
     ⟨Panel.primary, OverlayValues.bandV (calculate_bbands data 20 2).2,
      "red", none⟩]
   else [])

/-- The `plot_params` dictionary assembled by `plot_data` (minus the input
frame itself and the `returnfig` rendering detail). -/
structure ChartLayerSpec where
  type : String
  style : String
  volume : Bool
  addplot : List Overlay
  mav : Option (List ℕ)
  figsize : ℕ × ℕ

/-- Failure taxonomy of the core: `load_data` raises
`ValueError("No data found for this symbol.")` on an empty frame. -/
inductive DataError where
  | EmptySeries
deriving DecidableEq

/-- `plot_data(data)`: assembles the chart-layer specification from the
toggles and the indicator outputs. -/
noncomputable def plot_data (data : List PriceRecord) (t : FeatureToggles) :
    ChartLayerSpec :=
  { type := "candle"
    style := "charles"
    volume := t.volume
    addplot := get_indicators data t
    mav := get_mav t
    figsize := (10, 6) }

/-- `load_data` after the fetch: `if data.empty: raise ValueError(...)`,
otherwise `plot_data(data)`.  The validation happens before any indicator
computation. -/
noncomputable def compose (data : List PriceRecord) (t : FeatureToggles) :
    Except DataError ChartLayerSpec :=
  if data = [] then Except.error DataError.EmptySeries
  else Except.ok (plot_data data t)

/-- Spec-side restatement of the Moving-Average Selector contract (spec §4.3),
for comparison with `get_mav`: scan {ma5, ma20, ma60, ma200} in that fixed
ascending order, collect the window lengths of the enabled toggles, and
return an explicit absent value when none is enabled. -/
def selectMovingAverages_spec (t : FeatureToggles) : Option (List ℕ) :=
  let enabled :=
    ([(5, t.ma5), (20, t.ma20), (60, t.ma60), (200, t.ma200)].filter
        fun p => p.2).map Prod.fst
  if enabled.isEmpty then none else some enabled

/-- The 30-row strictly increasing close series [1.0 .. 30.0] of the spec's
RSI example. -/
def up30 : List ℚ :=
  (List.range 30).map fun k : ℕ => (k : ℚ) + 1

/- ### Helper lemmas about the rolling averages -/

theorem gain_nonneg (s : List ℚ) (i : ℕ) : 0 ≤ gain s i := by
  unfold gain
  split_ifs with h1 h2
  · exact le_rfl
  · exact h2.le
  · exact le_rfl

theorem loss_nonneg (s : List ℚ) (i : ℕ) : 0 ≤ loss s i := by
  unfold loss
  split_ifs with h1 h2
  · exact le_rfl
  · linarith
  · exact le_rfl

theorem min_window_pos (p i : ℕ) (hp : 0 < p) : 0 < min (i + 1) p :=
  lt_min_iff.mpr ⟨Nat.succ_pos i, hp⟩

theorem min_window_cast_ne (p i : ℕ) (hp : 0 < p) :
    ((min (i + 1) p : ℕ) : ℚ) ≠ 0 :=
  Nat.cast_ne_zero.mpr (min_window_pos p i hp).ne'

theorem self_mem_window (p i : ℕ) (hp : 0 < p) :
    i ∈ Finset.Icc (winLo p i) i := by
  rw [Finset.mem_Icc]
  refine ⟨?_, le_rfl⟩
  have h1 : 1 ≤ min (i + 1) p := min_window_pos p i hp
  have h2 : min (i + 1) p ≤ i + 1 := min_le_left _ _
  unfold winLo
  omega

theorem avg_gain_nonneg (s : List ℚ) (p i : ℕ) : 0 ≤ avg_gain s p i :=
  div_nonneg (Finset.sum_nonneg fun j _ => gain_nonneg s j) (Nat.cast_nonneg _)

theorem avg_loss_nonneg (s : List ℚ) (p i : ℕ) : 0 ≤ avg_loss s p i :=
  div_nonneg (Finset.sum_nonneg fun j _ => loss_nonneg s j) (Nat.cast_nonneg _)

theorem avg_gain_eq_zero_iff (s : List ℚ) (p i : ℕ) (hp : 0 < p) :
    avg_gain s p i = 0 ↔ ∀ j ∈ Finset.Icc (winLo p i) i, gain s j = 0 := by
  unfold avg_gain
  rw [div_eq_zero_iff, or_iff_left (min_window_cast_ne p i hp)]
  exact Finset.sum_eq_zero_iff_of_nonneg fun j _ => gain_nonneg s j

theorem avg_loss_eq_zero_iff (s : List ℚ) (p i : ℕ) (hp : 0 < p) :
    avg_loss s p i = 0 ↔ ∀ j ∈ Finset.Icc (winLo p i) i, loss s j = 0 := by
  unfold avg_loss
  rw [div_eq_zero_iff, or_iff_left (min_window_cast_ne p i hp)]
  exact Finset.sum_eq_zero_iff_of_nonneg fun j _ => loss_nonneg s j

theorem avg_gain_pos (s : List ℚ) (p i j₀ : ℕ) (hp : 0 < p)
    (hj : j₀ ∈ Finset.Icc (winLo p i) i) (hpos : 0 < gain s j₀) :
    0 < avg_gain s p i := by
  unfold avg_gain
  refine div_pos (Finset.sum_pos' (fun j _ => gain_nonneg s j) ⟨j₀, hj, hpos⟩) ?_
  exact_mod_cast min_window_pos p i hp

theorem avg_loss_pos (s : List ℚ) (p i j₀ : ℕ) (hp : 0 < p)
    (hj : j₀ ∈ Finset.Icc (winLo p i) i) (hpos : 0 < loss s j₀) :
    0 < avg_loss s p i := by
  unfold avg_loss
  refine div_pos (Finset.sum_pos' (fun j _ => loss_nonneg s j) ⟨j₀, hj, hpos⟩) ?_
  exact_mod_cast min_window_pos p i hp

theorem rsiAt_eq_none_iff (s : List ℚ) (p i : ℕ) :
    rsiAt s p i = none ↔ avg_gain s p i = 0 ∧ avg_loss s p i = 0 := by
  unfold rsiAt
  split_ifs with h1 h2
  · simp [h1, h2]
  · simp [h1, h2]
  · simp [h1]

theorem gain_loss_both_zero_iff (s : List ℚ) (j : ℕ) :
    gain s j = 0 ∧ loss s j = 0 ↔ j = 0 ∨ dlt s j = 0 := by
  unfold gain loss
  rcases eq_or_ne j 0 with h | h
  · simp [h]
  · simp only [if_neg h]
    constructor
    · rintro ⟨hg, hl⟩
      right
      by_contra hd
      rcases lt_or_gt_of_ne hd with hlt | hgt
      · rw [if_pos hlt] at hl
        exact hd (neg_eq_zero.mp hl)
      · rw [if_pos hgt] at hg
        exact hd hg
    · rintro (h0 | hd)
      · exact absurd h0 h
      · simp [hd]

theorem calculate_rsi_getD (s : List ℚ) (p i : ℕ) (h : i < s.length) :
    (calculate_rsi s p).getD i none = rsiAt s p i := by
  unfold calculate_rsi
  rw [List.getD_eq_getElem?_getD, List.getElem?_map, List.getElem?_range h]
  rfl

theorem rsiAt_isSome_iff (s : List ℚ) (p i : ℕ) (hp : 0 < p) :
    (rsiAt s p i).isSome = true ↔
      ∃ j ∈ Finset.Icc (winLo p i) i, 1 ≤ j ∧ dlt s j ≠ 0 := by
  rw [Option.isSome_iff_ne_none, ne_eq, rsiAt_eq_none_iff,
    avg_gain_eq_zero_iff s p i hp, avg_loss_eq_zero_iff s p i hp]
  constructor
  · intro h
    by_contra hex
    push_neg at hex
    apply h
    constructor <;> intro j hj
    · rcases Nat.eq_zero_or_pos j with h0 | h1
      · simp [gain, h0]
      · exact ((gain_loss_both_zero_iff s j).mpr (Or.inr (hex j hj h1))).1
    · rcases Nat.eq_zero_or_pos j with h0 | h1
      · simp [loss, h0]
      · exact ((gain_loss_both_zero_iff s j).mpr (Or.inr (hex j hj h1))).2
  · rintro ⟨j, hj, hj1, hjd⟩ ⟨hg, hl⟩
    rcases (gain_loss_both_zero_iff s j).mp ⟨hg j hj, hl j hj⟩ with h0 | hd0
    · omega
    · exact hjd hd0

theorem rsiAt_zero_eq_none (s : List ℚ) (p : ℕ) (hp : 0 < p) :
    rsiAt s p 0 = none := by
  rw [rsiAt_eq_none_iff]
  constructor
  · rw [avg_gain_eq_zero_iff s p 0 hp]
    intro j hj
    rw [Finset.mem_Icc] at hj
    have h0 : j = 0 := by omega
    simp [gain, h0]
  · rw [avg_loss_eq_zero_iff s p 0 hp]
    intro j hj
    rw [Finset.mem_Icc] at hj
    have h0 : j = 0 := by omega
    simp [loss, h0]

theorem rsiAt_eq_100 (s : List ℚ) (p i : ℕ) (hl : avg_loss s p i = 0)
    (hg : avg_gain s p i ≠ 0) : rsiAt s p i = some 100 := by
  unfold rsiAt
  rw [if_pos hl, if_neg hg]

theorem avg_gain_two (a b : ℚ) (p : ℕ) (hp : 2 ≤ p) :
    avg_gain [a, b] p 1 = (if 0 < b - a then b - a else 0) / 2 := by
  unfold avg_gain winLo
  have hmin : min (1 + 1) p = 2 := by omega
  rw [hmin, show (1 + 1 - 2 : ℕ) = 0 from rfl,
    show (Finset.Icc 0 1 : Finset ℕ) = {0, 1} from by decide,
    Finset.sum_pair (by omega : (0 : ℕ) ≠ 1)]
  have hg0 : gain [a, b] 0 = 0 := by simp [gain]
  have hg1 : gain [a, b] 1 = if 0 < b - a then b - a else 0 := by
    simp [gain, dlt]
  rw [hg0, hg1]
  norm_num

theorem avg_loss_two (a b : ℚ) (p : ℕ) (hp : 2 ≤ p) :
    avg_loss [a, b] p 1 = (if b - a < 0 then -(b - a) else 0) / 2 := by
  unfold avg_loss winLo
  have hmin : min (1 + 1) p = 2 := by omega
  rw [hmin, show (1 + 1 - 2 : ℕ) = 0 from rfl,
    show (Finset.Icc 0 1 : Finset ℕ) = {0, 1} from by decide,
    Finset.sum_pair (by omega : (0 : ℕ) ≠ 1)]
  have hl0 : loss [a, b] 0 = 0 := by simp [loss]
  have hl1 : loss [a, b] 1 = if b - a < 0 then -(b - a) else 0 := by
    simp [loss, dlt]
  rw [hl0, hl1]
  norm_num

theorem up30_length : up30.length = 30 := by
  simp [up30]

theorem up30_getD (j : ℕ) (hj : j < 30) : up30.getD j 0 = (j : ℚ) + 1 := by
  unfold up30
  rw [List.getD_eq_getElem?_getD, List.getElem?_map, List.getElem?_range hj]
  rfl

theorem up30_dlt (j : ℕ) (h1 : 1 ≤ j) (h2 : j ≤ 29) : dlt up30 j = 1 := by
  unfold dlt
  rw [up30_getD j (by omega), up30_getD (j - 1) (by omega), Nat.cast_sub h1]
  ring

theorem calculate_bbands_fst_getD (data : List PriceRecord) (w n i : ℕ)
    (h : i < data.length) :
    (calculate_bbands data w n).1.getD i none = upperAt (closes data) w n i := by
  unfold calculate_bbands
  rw [List.getD_eq_getElem?_getD, List.getElem?_map, List.getElem?_range h]
  rfl

theorem calculate_bbands_snd_getD (data : List PriceRecord) (w n i : ℕ)
    (h : i < data.length) :
    (calculate_bbands data w n).2.getD i none = lowerAt (closes data) w n i := by
  unfold calculate_bbands
  rw [List.getD_eq_getElem?_getD, List.getElem?_map, List.getElem?_range h]
  rfl

/- ### Claim theorems -/

/-- C1, counterexample: the claim says RSI is defined starting at the second
index for every series of length ≥ 2, but on the flat two-element series
[1, 1] the trailing average gain and loss at index 1 are both 0, the RS
ratio is 0/0, and RSI at the second index is undefined. -/
theorem C1_counterexample : (calculate_rsi [(1 : ℚ), 1] 14).getD 1 none = none := by
  rw [calculate_rsi_getD [(1 : ℚ), 1] 14 1 (by norm_num), rsiAt_eq_none_iff]
  constructor
  · rw [avg_gain_two 1 1 14 (by norm_num)]
    norm_num
  · rw [avg_loss_two 1 1 14 (by norm_num)]
    norm_num

/-- C1 (amended): for every price series of length ≥ 2, RSI (period 14) is
undefined at index 0, and at each later in-range index it is defined exactly
when the trailing minimum-window-of-1 average window contains a nonzero
delta — so RSI does not wait for a full 14-sample window, but a window with
no price movement (0/0) stays undefined. -/
theorem C1_rsi_min_window (s : List ℚ) (hs : 2 ≤ s.length) :
    (calculate_rsi s 14).getD 0 none = none ∧
    ∀ i, 1 ≤ i → i < s.length →
      (((calculate_rsi s 14).getD i none).isSome = true ↔
        ∃ j ∈ Finset.Icc (winLo 14 i) i, 1 ≤ j ∧ dlt s j ≠ 0) := by
  constructor
  · rw [calculate_rsi_getD s 14 0 (by omega)]
    exact rsiAt_zero_eq_none s 14 (by norm_num)
  · intro i h1 hi
    rw [calculate_rsi_getD s 14 i hi]
    exact rsiAt_isSome_iff s 14 i (by norm_num)

/-- C1, witness of the amended claim at the series [1, 2]. -/
theorem C1_witness :
    (calculate_rsi [(1 : ℚ), 2] 14).getD 0 none = none ∧
    (((calculate_rsi [(1 : ℚ), 2] 14).getD 1 none).isSome = true ↔
      ∃ j ∈ Finset.Icc (winLo 14 1) 1, 1 ≤ j ∧ dlt [(1 : ℚ), 2] j ≠ 0) :=
  ⟨(C1_rsi_min_window [1, 2] (by norm_num)).1,
   (C1_rsi_min_window [1, 2] (by norm_num)).2 1 (by norm_num) (by norm_num)⟩

/-- C2: at any index where the trailing average gain and average loss are
both exactly 0, the RS ratio is 0/0 and RSI is the explicit no-value marker
`none` — never `some 0`, `some 50` or `some 100`. -/
theorem C2_rsi_flat_undefined (s : List ℚ) (p i : ℕ)
    (hg : avg_gain s p i = 0) (hl : avg_loss s p i = 0) :
    rsiAt s p i = none ∧ ∀ q : ℚ, rsiAt s p i ≠ some q := by
  have h := (rsiAt_eq_none_iff s p i).mpr ⟨hg, hl⟩
  refine ⟨h, fun q hq => ?_⟩
  rw [h] at hq
  exact Option.noConfusion hq

/-- C2, witness: the flat series [1, 1] at index 1. -/
theorem C2_witness :
    rsiAt [(1 : ℚ), 1] 14 1 = none ∧ ∀ q : ℚ, rsiAt [(1 : ℚ), 1] 14 1 ≠ some q :=
  C2_rsi_flat_undefined [1, 1] 14 1
    (by rw [avg_gain_two 1 1 14 (by norm_num)]; norm_num)
    (by rw [avg_loss_two 1 1 14 (by norm_num)]; norm_num)

/-- C3: whenever the trailing average loss is 0 and the trailing average
gain is nonzero, RSI is exactly 100; and on the 30-row strictly increasing
close series [1.0 .. 30.0] the RSI series has length 30, is undefined at
index 0, and equals 100 at every index 1 .. 29. -/
theorem C3_rsi_uptrend_100 :
    (∀ (s : List ℚ) (p i : ℕ), avg_loss s p i = 0 → avg_gain s p i ≠ 0 →
      rsiAt s p i = some 100) ∧
    (calculate_rsi up30 14).length = 30 ∧
    (calculate_rsi up30 14).getD 0 none = none ∧
    ∀ i, 1 ≤ i → i < 30 → (calculate_rsi up30 14).getD i none = some 100 := by
  refine ⟨rsiAt_eq_100, by simp [calculate_rsi, up30_length], ?_, ?_⟩
  · rw [calculate_rsi_getD up30 14 0 (by rw [up30_length]; omega)]
    exact rsiAt_zero_eq_none up30 14 (by norm_num)
  · intro i h1 hi
    rw [calculate_rsi_getD up30 14 i (by rw [up30_length]; omega)]
    apply rsiAt_eq_100
    · rw [avg_loss_eq_zero_iff up30 14 i (by norm_num)]
      intro j hj
      rw [Finset.mem_Icc] at hj
      rcases Nat.eq_zero_or_pos j with h0 | hj1
      · simp [loss, h0]
      · have hd : dlt up30 j = 1 := up30_dlt j hj1 (by omega)
        simp [loss, hd, Nat.pos_iff_ne_zero.mp hj1]
    · refine (avg_gain_pos up30 14 i i (by norm_num)
        (self_mem_window 14 i (by norm_num)) ?_).ne'
      have hd : dlt up30 i = 1 := up30_dlt i h1 (by omega)
      simp [gain, hd, Nat.pos_iff_ne_zero.mp h1]

/-- C3, witness: the two-element rising series [1, 3] at index 1, and the
30-row example at index 7. -/
theorem C3_witness :
    rsiAt [(1 : ℚ), 3] 14 1 = some 100 ∧
    (calculate_rsi up30 14).getD 7 none = some 100 :=
  ⟨C3_rsi_uptrend_100.1 [1, 3] 14 1
      (by rw [avg_loss_two 1 3 14 (by norm_num)]; norm_num)
      (by rw [avg_gain_two 1 3 14 (by norm_num)]; norm_num),
   C3_rsi_uptrend_100.2.2.2 7 (by norm_num) (by norm_num)⟩

/-- C4: wherever RSI is defined it lies between 0 and 100. -/
theorem C4_rsi_bounded (s : List ℚ) (p i : ℕ) (q : ℚ)
    (hq : rsiAt s p i = some q) : 0 ≤ q ∧ q ≤ 100 := by
  unfold rsiAt at hq
  split_ifs at hq with h1 h2
  · rw [Option.some_inj] at hq
    subst hq
    norm_num
  · rw [Option.some_inj] at hq
    subst hq
    have hg : 0 ≤ avg_gain s p i := avg_gain_nonneg s p i
    have hl0 : 0 ≤ avg_loss s p i := avg_loss_nonneg s p i
    have hl : 0 < avg_loss s p i := hl0.lt_of_ne (Ne.symm h1)
    have hr : 0 ≤ avg_gain s p i / avg_loss s p i :=
      div_nonneg hg hl.le
    have hd : 0 < 1 + avg_gain s p i / avg_loss s p i := by linarith
    have h100 : 100 / (1 + avg_gain s p i / avg_loss s p i) ≤ 100 := by
      rw [div_le_iff₀ hd]
      nlinarith
    have hpos : 0 < 100 / (1 + avg_gain s p i / avg_loss s p i) := by
      positivity
    constructor <;> linarith

/-- C4, witness: the falling series [4, 3] at index 1, where RSI is 0. -/
theorem C4_witness : (0 : ℚ) ≤ 0 ∧ (0 : ℚ) ≤ 100 := by
  have hg : avg_gain [(4 : ℚ), 3] 14 1 = 0 := by
    rw [avg_gain_two 4 3 14 (by norm_num)]
    norm_num
  have hl : avg_loss [(4 : ℚ), 3] 14 1 = 1 / 2 := by
    rw [avg_loss_two 4 3 14 (by norm_num)]
    norm_num
  have hv : rsiAt [(4 : ℚ), 3] 14 1 = some 0 := by
    unfold rsiAt
    rw [hg, hl]
    norm_num
  exact C4_rsi_bounded [4, 3] 14 1 0 hv

/-- C5: the Bollinger Band series (window 20) are undefined at every in-range
index below 19 = window - 1 and defined at every in-range index from 19 on —
a strict fixed window, with no minimum-window-of-1 relaxation. -/
theorem C5_bbands_window (data : List PriceRecord) (i : ℕ)
    (h : i < data.length) :
    (((calculate_bbands data 20 2).1.getD i none).isSome = true ↔ 19 ≤ i) ∧
    (((calculate_bbands data 20 2).2.getD i none).isSome = true ↔ 19 ≤ i) := by
  rw [calculate_bbands_fst_getD data 20 2 i h,
    calculate_bbands_snd_getD data 20 2 i h]
  unfold upperAt lowerAt
  constructor
  · split_ifs with h'
    · simp only [Option.isSome_none, Bool.false_eq_true, false_iff]
      omega
    · simp only [Option.isSome_some, true_iff]
      omega
  · split_ifs with h'
    · simp only [Option.isSome_none, Bool.false_eq_true, false_iff]
      omega
    · simp only [Option.isSome_some, true_iff]
      omega

/-- C5, witness: a 20-row series, checked at index 19. -/
theorem C5_witness :
    (((calculate_bbands (List.replicate 20 (⟨1, 1, 1, 1, 1⟩ : PriceRecord))
        20 2).1.getD 19 none).isSome = true ↔ 19 ≤ 19) ∧
    (((calculate_bbands (List.replicate 20 (⟨1, 1, 1, 1, 1⟩ : PriceRecord))
        20 2).2.getD 19 none).isSome = true ↔ 19 ≤ 19) :=
  C5_bbands_window (List.replicate 20 ⟨1, 1, 1, 1, 1⟩) 19 (by simp)

/-- C6: wherever both Bollinger Bands (window 20, 2 standard deviations) are
defined, the upper band is at least the lower band, since the sample
standard deviation is nonnegative. -/
theorem C6_bands_ordered (s : List ℚ) (i : ℕ) (u l : ℝ)
    (hu : upperAt s 20 2 i = some u) (hl : lowerAt s 20 2 i = some l) :
    l ≤ u := by
  unfold upperAt at hu
  unfold lowerAt at hl
  split_ifs at hu hl with h
  have hu' := Option.some_inj.mp hu
  have hl' := Option.some_inj.mp hl
  rw [← hu', ← hl']
  have hs : (0 : ℝ) ≤ Real.sqrt ((rolling_var s 20 i : ℚ) : ℝ) :=
    Real.sqrt_nonneg _
  have h2 : (0 : ℝ) ≤ ((2 : ℕ) : ℝ) := by norm_num
  nlinarith [mul_nonneg hs h2]

/-- C6, witness: a constant 20-row close series at index 19. -/
theorem C6_witness :
    ((rolling_mean (closes (List.replicate 20 (⟨1, 1, 1, 1, 1⟩ : PriceRecord)))
        20 19 : ℚ) : ℝ) -
      Real.sqrt ((rolling_var (closes
        (List.replicate 20 (⟨1, 1, 1, 1, 1⟩ : PriceRecord))) 20 19 : ℚ)) *
        ((2 : ℕ) : ℝ) ≤
    ((rolling_mean (closes (List.replicate 20 (⟨1, 1, 1, 1, 1⟩ : PriceRecord)))
        20 19 : ℚ) : ℝ) +
      Real.sqrt ((rolling_var (closes
        (List.replicate 20 (⟨1, 1, 1, 1, 1⟩ : PriceRecord))) 20 19 : ℚ)) *
        ((2 : ℕ) : ℝ) :=
  C6_bands_ordered (closes (List.replicate 20 ⟨1, 1, 1, 1, 1⟩)) 19 _ _
    (by rw [upperAt, if_neg (by norm_num)])
    (by rw [lowerAt, if_neg (by norm_num)])

/-- C7: `get_mav` returns the window lengths of the enabled toggles in the
fixed ascending order 5, 20, 60, 200 (as restated from the spec by
`selectMovingAverages_spec`), returns the explicit absent value `none`
exactly when no MA toggle is enabled, and in particular maps the toggles
{ma5, ma20, ma200} to `some [5, 20, 200]`. -/
theorem C7_mav_selector :
    get_mav ⟨false, false, false, true, true, false, true⟩ = some [5, 20, 200] ∧
    ∀ t : FeatureToggles,
      get_mav t = selectMovingAverages_spec t ∧
      (get_mav t = none ↔
        (t.ma5 = false ∧ t.ma20 = false ∧ t.ma60 = false ∧ t.ma200 = false)) := by
  refine ⟨by decide, ?_⟩
  intro t
  obtain ⟨v, r, bb, m5, m20, m60, m200⟩ := t
  cases v <;> cases r <;> cases bb <;> cases m5 <;> cases m20 <;> cases m60 <;>
    cases m200 <;> decide

/-- C7, witness: the all-false toggle assignment yields the absent value. -/
theorem C7_witness :
    get_mav ⟨false, false, false, false, false, false, false⟩ =
      selectMovingAverages_spec ⟨false, false, false, false, false, false, false⟩ ∧
    (get_mav ⟨false, false, false, false, false, false, false⟩ = none ↔
      (false = false ∧ false = false ∧ false = false ∧ false = false)) :=
  C7_mav_selector.2 ⟨false, false, false, false, false, false, false⟩

/-- C8: on an empty series `compose` fails with `DataError.EmptySeries`
(carrying no partial output), and on any non-empty series it never raises
`EmptySeries` — it returns a chart-layer specification. -/
theorem C8_empty_series :
    (∀ t, compose [] t = Except.error DataError.EmptySeries) ∧
    ∀ (data : List PriceRecord) (t : FeatureToggles), data ≠ [] →
      (compose data t).toOption.isSome = true := by
  constructor
  · intro t
    simp [compose]
  · intro data t hd
    simp [compose, hd, Except.toOption]

/-- C8, witness: a one-row series composes successfully. -/
theorem C8_witness :
    (compose [⟨1, 1, 1, 1, 1⟩]
      ⟨true, true, true, true, true, true, true⟩).toOption.isSome = true :=
  C8_empty_series.2 [⟨1, 1, 1, 1, 1⟩]
    ⟨true, true, true, true, true, true, true⟩ (by simp)

/-- C9: with rsi, bbands and ma5 enabled (the other MA toggles off), the
composed specification of any non-empty series carries exactly three overlay
descriptors — the RSI descriptor on the secondary panel with label "RSI",
then the two Bollinger descriptors on the primary panel — and the
moving-average window list [5] in the top-level plot options. -/
theorem C9_three_overlays (data : List PriceRecord) (t : FeatureToggles)
    (hd : data ≠ []) (h1 : t.rsi = true) (h2 : t.bbands = true)
    (h3 : t.ma5 = true) (h4 : t.ma20 = false) (h5 : t.ma60 = false)
    (h6 : t.ma200 = false) :
    (compose data t).toOption.map
        (fun sp => (sp.addplot.map fun o => (o.panel, o.color, o.label),
          sp.mav)) =
      some ([(Panel.secondary, "blue", some "RSI"),
             (Panel.primary, "red", (none : Option String)),
             (Panel.primary, "red", (none : Option String))],
            some [5]) := by
  simp [compose, hd, Except.toOption, plot_data, get_indicators, get_mav,
    h1, h2, h3, h4, h5, h6]

/-- C9, witness: a concrete one-row series with those toggles. -/
theorem C9_witness :
    (compose [(⟨1, 1, 1, 1, 1⟩ : PriceRecord)]
        ⟨false, true, true, true, false, false, false⟩).toOption.map
        (fun sp => (sp.addplot.map fun o => (o.panel, o.color, o.label),
          sp.mav)) =
      some ([(Panel.secondary, "blue", some "RSI"),
             (Panel.primary, "red", (none : Option String)),
             (Panel.primary, "red", (none : Option String))],
            some [5]) :=
  C9_three_overlays [⟨1, 1, 1, 1, 1⟩] ⟨false, true, true, true, false, false, false⟩
    (by simp) rfl rfl rfl rfl rfl rfl

/-- C10: with both the rsi and bbands toggles off, the indicator-overlay
assembly returns the empty list (not an absent value), the composed
specification still carries that (empty) overlay list, while the
moving-average selection is `none` when additionally no MA toggle is set. -/
theorem C10_empty_overlay_list (data : List PriceRecord) (t : FeatureToggles)
    (h1 : t.rsi = false) (h2 : t.bbands = false) :
    get_indicators data t = [] ∧
    (data ≠ [] →
      (compose data t).toOption.map ChartLayerSpec.addplot = some []) ∧
    (t.ma5 = false → t.ma20 = false → t.ma60 = false → t.ma200 = false →
      get_mav t = none) := by
  refine ⟨?_, ?_, ?_⟩
  · simp [get_indicators, h1, h2]
  · intro hd
    simp [compose, hd, Except.toOption, plot_data, get_indicators, h1, h2]
  · intro h3 h4 h5 h6
    simp [get_mav, h3, h4, h5, h6]

/-- C10, witness: one-row series, all toggles off. -/
theorem C10_witness :
    get_indicators [(⟨1, 1, 1, 1, 1⟩ : PriceRecord)]
        ⟨false, false, false, false, false, false, false⟩ = [] ∧
    (([(⟨1, 1, 1, 1, 1⟩ : PriceRecord)] : List PriceRecord) ≠ [] →
      (compose [(⟨1, 1, 1, 1, 1⟩ : PriceRecord)]
          ⟨false, false, false, false, false, false, false⟩).toOption.map
        ChartLayerSpec.addplot = some []) ∧
    ((false : Bool) = false → (false : Bool) = false → (false : Bool) = false →
      (false : Bool) = false →
      get_mav ⟨false, false, false, false, false, false, false⟩ = none) :=
  C10_empty_overlay_list [⟨1, 1, 1, 1, 1⟩]
    ⟨false, false, false, false, false, false, false⟩ rfl rfl
